import Mathlib

/-!
Shallow embedding of `serpens_client_python`:
`src/connection.py` (`SerpensConnectionManager`, the HTTP transport) and
`src/admin.py` (`SerpensOpenIDConnection`, the credential session).

External collaborators — Python's `requests` library and the OpenID token
endpoint client (`SerpensOpenID`, not under `src/`) — are modelled as
oracles passed in as arguments: the network outcome of an HTTP call and the
results the token service would return are parameters of the embedded
functions, and the functions record which token-service calls and which
`get_token` invocations they make.  Clock reads (`datetime.now()`) are
passed in as a `now` argument; time instants are rationals (seconds since
an arbitrary epoch); token lifetimes are naturals.
-/

namespace Serpens

/-- Header mappings (`dict[str, str]` in Python) as association lists with
last-write-wins update, most recent entry first. -/
abbrev HeaderMap := List (String × String)

/-- Empty header mapping (`{}`). -/
def HeaderMap.empty : HeaderMap := []

/-- `headers.get(key)` — `None` when absent. -/
def HeaderMap.get (m : HeaderMap) (key : String) : Option String :=
  List.lookup key m

/-- `headers[key] = value` — insert or overwrite. -/
def HeaderMap.set (m : HeaderMap) (key value : String) : HeaderMap :=
  (key, value) :: m.filter (fun p => p.1 ≠ key)

/-- `headers.pop(key, None)` — remove, no-op when absent. -/
def HeaderMap.remove (m : HeaderMap) (key : String) : HeaderMap :=
  m.filter (fun p => p.1 ≠ key)

/-- A token response `dict` from the token endpoint.  `access_token` and
`expires_in` are present in every response this code consumes
(`token["expires_in"]`, `token.get("access_token")`); `refresh_token` is
optional (`token.get("refresh_token", None)`). -/
structure Token where
  access_token : String
  refresh_token : Option String
  expires_in : ℕ
  deriving DecidableEq, Repr

/-- Python exceptions observed by this code: `SerpensPostError` carries the
token endpoint's HTTP status (`response_code`) and response body
(`response_body`); `AttributeError` is what a failed attribute lookup (such
as the undefined `add_param_headers` method on admin.py line 244) raises. -/
inductive PyError where
  | serpensPostError (code : ℕ) (body : String)
  | attributeError
  deriving DecidableEq, Repr

/-- Outcome of one low-level HTTP call through `requests`: either a response
arrived, or a transport-level exception (connection refused, timeout, TLS
error) was raised. -/
inductive HttpOutcome where
  | response (status : ℕ) (headers : HeaderMap) (body : String)
  | exception
  deriving DecidableEq

/-- An HTTP response as the caller sees it (status code, headers, body). -/
structure Response where
  status : ℕ
  headers : HeaderMap
  body : String
  deriving DecidableEq

/-- The request a transport verb hands to `requests.Session.<verb>`: the
base URL and relative path (joined by the external `urljoin`), query
params, optional payload, and the stored headers, timeout and TLS flag. -/
structure Request where
  base_url : String
  path : String
  params : List (String × String)
  payload : Option String
  headers : HeaderMap
  timeout : ℕ
  verify : Bool
  deriving DecidableEq

/-- The request-relevant state of a `SerpensConnectionManager`
(connection.py `__init__`, lines 37–65): `base_url`, `headers`, `timeout`,
`verify`.  The pooled `requests.Session` and its retry adapters perform
I/O only and are represented by the network oracle. -/
structure ConnState where
  base_url : String
  headers : HeaderMap
  timeout : ℕ
  verify : Bool
  deriving DecidableEq

/-- The request each connection.py verb builds from the stored state and
its arguments (`urljoin(self.base_url, path)`, `params=kwargs`,
`headers=self.headers`, `timeout=self.timeout`, `verify=self.verify`). -/
def ConnState.requestFor (cm : ConnState) (path : String)
    (params : List (String × String)) (payload : Option String) : Request :=
  ⟨cm.base_url, path, params, payload, cm.headers, cm.timeout, cm.verify⟩

/-- connection.py `send_get` (lines 159–179): build the request from the
stored state, execute it, and on any exception return nothing
(`except Exception: pass` falls off the function, returning `None`). -/
def ConnState.send_get (cm : ConnState) (path : String)
    (params : List (String × String)) (net : Request → HttpOutcome) :
    Option Response :=
  match net (cm.requestFor path params none) with
  | .response st hs b => some ⟨st, hs, b⟩
  | .exception => none

/-- connection.py `send_post` (lines 181–203): as `send_get`, with a body. -/
def ConnState.send_post (cm : ConnState) (path : String) (data : String)
    (params : List (String × String)) (net : Request → HttpOutcome) :
    Option Response :=
  match net (cm.requestFor path params (some data)) with
  | .response st hs b => some ⟨st, hs, b⟩
  | .exception => none

/-- connection.py `send_put` (lines 205–227). -/
def ConnState.send_put (cm : ConnState) (path : String) (data : String)
    (params : List (String × String)) (net : Request → HttpOutcome) :
    Option Response :=
  match net (cm.requestFor path params (some data)) with
  | .response st hs b => some ⟨st, hs, b⟩
  | .exception => none

/-- connection.py `send_delete` (lines 229–251): `data=None` defaults to an
empty payload (`data or dict()`). -/
def ConnState.send_delete (cm : ConnState) (path : String)
    (data : Option String) (params : List (String × String))
    (net : Request → HttpOutcome) : Option Response :=
  match net (cm.requestFor path params (some (data.getD ""))) with
  | .response st hs b => some ⟨st, hs, b⟩
  | .exception => none

/-! ### Byte-substring matching (Python's `in` on bytes, admin.py line 239) -/

/-- Whether the first list is an initial segment of the second. -/
def leadMatch : List Char → List Char → Bool
  | [], _ => true
  | _ :: _, [] => false
  | a :: as, b :: bs => (a = b) && leadMatch as bs

/-- Whether `needle` occurs contiguously inside the second list. -/
def hasChunk (needle : List Char) : List Char → Bool
  | [] => leadMatch needle []
  | c :: rest => leadMatch needle (c :: rest) || hasChunk needle rest

/-- Python's `needle in hay` substring test. -/
def strContains (hay needle : String) : Bool :=
  hasChunk needle.data hay.data

/-- admin.py lines 234–239: the rejection-phrase match deciding refresh
fallback — `any(err in e.response_body for err in list_errors)`. -/
def isRejection (body : String) : Bool :=
  strContains body "Refresh token expired" ||
  strContains body "Token is not active" ||
  strContains body "Session not active"

/-! ### The credential session (`SerpensOpenIDConnection`, admin.py) -/

/-- Python truthiness for an optional string (`if self.client_secret_key:`,
`if self.username and self.password:`): present and non-empty. -/
def truthy : Option String → Bool
  | none => false
  | some v => !v.isEmpty

/-- Python `int()` applied to a rational: truncation toward zero (for the
nonnegative values arising here this coincides with the floor). -/
def pyInt (q : ℚ) : ℤ :=
  if 0 ≤ q then ⌊q⌋ else -⌊-q⌋

/-- State of a `SerpensOpenIDConnection` (admin.py).  `base_url`,
`headers`, `timeout` and `verify` are the inherited
`SerpensConnectionManager` fields; the rest are the session's own
attributes.  `custom_headers` is stored by `__init__` but never read by any
operation in `src/`. -/
structure SessionState where
  base_url : String
  username : Option String
  password : Option String
  token : Option Token
  totp : Option String
  realm_name : String
  client_id : String
  verify : Bool
  client_secret_key : Option String
  custom_headers : Option HeaderMap
  user_realm_name : Option String
  headers : HeaderMap
  timeout : ℕ
  token_lifetime_fraction : ℚ
  expires_at : ℚ
  deriving DecidableEq

/-- The inherited transport state used when a verb call executes. -/
def SessionState.toConn (s : SessionState) : ConnState :=
  ⟨s.base_url, s.headers, s.timeout, s.verify⟩

/-- The `token` property setter (admin.py lines 172–177): stores the new
value and recomputes `_expires_at` as
`datetime.now() + timedelta(seconds=int(fraction * token["expires_in"] if value else 0))`. -/
def setToken (s : SessionState) (now : ℚ) (value : Option Token) : SessionState :=
  { s with
    token := value
    expires_at := now + (pyInt (match value with
      | some t => s.token_lifetime_fraction * (t.expires_in : ℚ)
      | none => 0) : ℚ) }

/-- The two grant types `get_token` can select (admin.py lines 210–214). -/
inductive GrantKind where
  | client_credentials
  | password
  deriving DecidableEq, Repr

/-- Grant selection in `get_token`: a client secret wins over
username+password; with neither, no grant is attempted. -/
def grantType (s : SessionState) : Option GrantKind :=
  if truthy s.client_secret_key then some .client_credentials
  else if truthy s.username && truthy s.password then some .password
  else none

/-- Result of a token-state operation: the updated session state, how many
`get_token` invocations and how many TokenService calls (acquire or
refresh) it made, and the exception propagating out of it, if any. -/
structure TokenStep where
  state : SessionState
  getTokenCalls : ℕ
  serviceCalls : ℕ
  raised : Option PyError
  deriving DecidableEq

/-- admin.py `get_token` (lines 206–221): select a grant; if one is
available call the token service (`acquire` is its outcome) and store the
result through the `token` setter; otherwise store `None` without any
service call. -/
def get_token (s : SessionState) (now : ℚ) (acquire : Except PyError Token) :
    TokenStep :=
  match grantType s with
  | some _ =>
    match acquire with
    | .ok t => ⟨setToken s now (some t), 1, 1, none⟩
    | .error e => ⟨s, 1, 1, some e⟩
  | none => ⟨setToken s now none, 1, 0, none⟩

/-- admin.py `refresh_token` (lines 223–244).  `refreshOutcome` is what
`serpens_openid.refresh_token` would do: a new token, or a
`SerpensPostError` with status code and body.  With no stored refresh
token, fall through to `get_token`; on a refresh `SerpensPostError` with
code 400 whose body contains a known rejection phrase, fall back to
`get_token`; on any other refresh error, re-raise it unchanged.  Every
path that does not re-raise ends at line 244,
`self.add_param_headers(...)` — an attribute lookup of a method that is
defined nowhere (connection.py defines `set_param_headers`), so it raises
`AttributeError` before any argument is evaluated. -/
def refresh_token (s : SessionState) (now : ℚ)
    (refreshOutcome : Except (ℕ × String) Token)
    (acquire : Except PyError Token) : TokenStep :=
  let rtok : Option String := match s.token with
    | none => none
    | some t => t.refresh_token
  match rtok with
  | none =>
    let g := get_token s now acquire
    match g.raised with
    | some e => ⟨g.state, g.getTokenCalls, g.serviceCalls, some e⟩
    | none => ⟨g.state, g.getTokenCalls, g.serviceCalls, some .attributeError⟩
  | some _ =>
    match refreshOutcome with
    | .ok t => ⟨setToken s now (some t), 0, 1, some .attributeError⟩
    | .error (code, body) =>
      if code = 400 ∧ isRejection body = true then
        let g := get_token s now acquire
        match g.raised with
        | some e => ⟨g.state, g.getTokenCalls, 1 + g.serviceCalls, some e⟩
        | none => ⟨g.state, g.getTokenCalls, 1 + g.serviceCalls, some .attributeError⟩
      else
        ⟨s, 0, 1, some (.serpensPostError code body)⟩

/-- admin.py `_refresh_if_required` (lines 246–251): refresh when
`datetime.now() >= self.expires_at`, otherwise do nothing. -/
def refreshIfRequired (s : SessionState) (now : ℚ)
    (refreshOutcome : Except (ℕ × String) Token)
    (acquire : Except PyError Token) : TokenStep :=
  if s.expires_at ≤ now then refresh_token s now refreshOutcome acquire
  else ⟨s, 0, 0, none⟩

deriving instance DecidableEq for Except

/-- Outcome of a verb call on the credential session: final state, token
activity counts, whether the underlying transport verb executed (and with
which request), and the value returned to the caller or the exception
raised. -/
structure VerbOut where
  state : SessionState
  getTokenCalls : ℕ
  serviceCalls : ℕ
  delegated : Bool
  request : Option Request
  result : Except PyError (Option Response)
  deriving DecidableEq

/-- admin.py `send_get` (lines 254–257): `_refresh_if_required`, then
delegate to the transport `send_get` and return its result. -/
def sendGet (s : SessionState) (now : ℚ)
    (refreshOutcome : Except (ℕ × String) Token)
    (acquire : Except PyError Token) (path : String)
    (params : List (String × String)) (net : Request → HttpOutcome) :
    VerbOut :=
  let r := refreshIfRequired s now refreshOutcome acquire
  match r.raised with
  | some e => ⟨r.state, r.getTokenCalls, r.serviceCalls, false, none, .error e⟩
  | none =>
    ⟨r.state, r.getTokenCalls, r.serviceCalls, true,
      some (r.state.toConn.requestFor path params none),
      .ok (r.state.toConn.send_get path params net)⟩

/-- admin.py `send_post` (lines 259–263): `_refresh_if_required`, then
delegate to the transport `send_post`, binding the response to `r` — but
the method body ends without a `return` statement, so the caller receives
`None` regardless of the transport's response. -/
def sendPost (s : SessionState) (now : ℚ)
    (refreshOutcome : Except (ℕ × String) Token)
    (acquire : Except PyError Token) (path data : String)
    (params : List (String × String)) (net : Request → HttpOutcome) :
    VerbOut :=
  let r := refreshIfRequired s now refreshOutcome acquire
  match r.raised with
  | some e => ⟨r.state, r.getTokenCalls, r.serviceCalls, false, none, .error e⟩
  | none =>
    let _resp := r.state.toConn.send_post path data params net
    ⟨r.state, r.getTokenCalls, r.serviceCalls, true,
      some (r.state.toConn.requestFor path params (some data)),
      .ok none⟩

/-- `send_put` on a `SerpensOpenIDConnection`: the class does not override
it, so Python method resolution runs connection.py `send_put` directly —
no expiry check, no clock read, no token activity. -/
def sendPut (s : SessionState) (path data : String)
    (params : List (String × String)) (net : Request → HttpOutcome) :
    VerbOut :=
  ⟨s, 0, 0, true, some (s.toConn.requestFor path params (some data)),
    .ok (s.toConn.send_put path data params net)⟩

/-- `send_delete` on a `SerpensOpenIDConnection`: likewise not overridden;
runs connection.py `send_delete` directly. -/
def sendDelete (s : SessionState) (path : String) (data : Option String)
    (params : List (String × String)) (net : Request → HttpOutcome) :
    VerbOut :=
  ⟨s, 0, 0, true, some (s.toConn.requestFor path params (some (data.getD ""))),
    .ok (s.toConn.send_delete path data params net)⟩

/-- Result of constructing a `SerpensOpenIDConnection`. -/
structure InitOut where
  state : SessionState
  serviceCalls : ℕ
  raised : Option PyError
  deriving DecidableEq

/-- admin.py `__init__` (lines 58–120), parameters in source order after
`server_url`.  Sets `token_lifetime_fraction = 0.9`, stores the fields
(the `token` setter computes `expires_at`), calls `get_token` when no
token was supplied, builds the `Authorization`/`Content-Type` headers when
a token is present (else `{}`), and finally calls the
`SerpensConnectionManager` initializer with `timeout=60` — the literal 60,
not the `timeout` parameter stored just before, so the stored timeout is
overwritten. -/
def initSession (now : ℚ) (server_url : String)
    (username password : Option String) (token0 : Option Token)
    (totp : Option String) (realm_name client_id : String) (verify : Bool)
    (client_secret_key : Option String) (custom_headers : Option HeaderMap)
    (user_realm_name : Option String) (timeout : ℕ)
    (acquire : Except PyError Token) : InitOut :=
  let s0 : SessionState :=
    { base_url := server_url, username, password, token := none, totp,
      realm_name, client_id, verify, client_secret_key,
      custom_headers := none, user_realm_name,
      headers := HeaderMap.empty, timeout,
      token_lifetime_fraction := 9 / 10, expires_at := 0 }
  let s1 := setToken s0 now token0
  match token0 with
  | some t =>
    let hs : HeaderMap :=
      [("Authorization", "Bearer " ++ t.access_token),
       ("Content-Type", "application/json")]
    ⟨{ s1 with
        headers := hs
        custom_headers := custom_headers
        timeout := 60 }, 0, none⟩
  | none =>
    let g := get_token s1 now acquire
    match g.raised with
    | some e => ⟨g.state, g.serviceCalls, some e⟩
    | none =>
      let hs : HeaderMap := match g.state.token with
        | some t =>
          [("Authorization", "Bearer " ++ t.access_token),
           ("Content-Type", "application/json")]
        | none => HeaderMap.empty
      ⟨{ g.state with
          headers := hs
          custom_headers := custom_headers
          timeout := 60 }, g.serviceCalls, none⟩

/-- The spec's expiry formula, stated from its words for refinement
comparison with `setToken`: `expiresAt == issueTime + fraction × lifetime`,
with no rounding. -/
def expiresAtSpec (issueTime : ℚ) (fraction : ℚ) (lifetime : ℕ) : ℚ :=
  issueTime + fraction * lifetime

/-! ### Header aliasing across instances (connection.py line 37)

`def __init__(self, base_url, headers={}, ...)`: the default `{}` dict is
allocated once, when the function object is created; every construction
that omits `headers` binds `self._headers` to that same dict object.
`World` holds the current contents of that one shared dict; an instance's
headers are either a reference to it or an owned dict. -/

/-- The module-level mutable state: the single default-argument dict. -/
structure World where
  defaultHeaders : HeaderMap
  deriving DecidableEq

/-- What an instance's `_headers` attribute refers to. -/
inductive HeadersRef where
  | sharedDefault
  | owned (m : HeaderMap)
  deriving DecidableEq

/-- A `SerpensConnectionManager` as far as header identity is concerned. -/
structure CMRef where
  base_url : String
  hdr : HeadersRef
  deriving DecidableEq

/-- Construction: an explicit `headers` argument is owned; omitting it
aliases the shared default dict. -/
def mkManager (base_url : String) (explicit : Option HeaderMap) : CMRef :=
  ⟨base_url, match explicit with
    | some m => .owned m
    | none => .sharedDefault⟩

/-- Dereference an instance's headers in the current world. -/
def readHeaders (w : World) : HeadersRef → HeaderMap
  | .sharedDefault => w.defaultHeaders
  | .owned m => m

/-- connection.py `get_param_headers` (lines 110–120). -/
def get_param_headers (w : World) (c : CMRef) (key : String) : Option String :=
  (readHeaders w c.hdr).get key

/-- connection.py `set_param_headers` (lines 140–148):
`self.headers[key] = value` mutates the referenced dict in place — the
shared default dict when the instance aliases it. -/
def set_param_headers (w : World) (c : CMRef) (key value : String) :
    World × CMRef :=
  match c.hdr with
  | .sharedDefault => (⟨w.defaultHeaders.set key value⟩, c)
  | .owned m => (w, ⟨c.base_url, .owned (m.set key value)⟩)

/-- connection.py `clean_headers` (lines 122–126): `self.headers = {}`
rebinds the attribute to a fresh dict, breaking any aliasing. -/
def clean_headers (c : CMRef) : CMRef :=
  ⟨c.base_url, .owned HeaderMap.empty⟩

/-! ### Concrete fixtures -/

/-- A token with a 300-second lifetime and a refresh token. -/
def tok300 : Token := ⟨"acc0", some "ref0", 300⟩

/-- A network oracle that always answers 200 `ok`. -/
def netOk200 : Request → HttpOutcome :=
  fun _ => .response 200 HeaderMap.empty "ok"

/-- A session constructed at time 0 with username/password and a
pre-supplied token (`expires_in = 300`, so `expires_at = 270`), with
constructor argument `timeout=30`. -/
def sampleSession : SessionState :=
  (initSession 0 "https://srv" (some "u") (some "p") (some tok300) none
    "master" "admin-cli" true none none none 30 (.ok tok300)).state

/-- A session constructed at time 0 with only the server URL. -/
def unauthInit : InitOut :=
  initSession 0 "https://srv" none none none none "master" "admin-cli" true
    none none none 60 (.ok tok300)

/-! ### Theorems -/

/-- `int(0.9 * L)` on a natural lifetime `L` is `⌊9L/10⌋`. -/
theorem pyInt_nine_tenths (L : ℕ) :
    pyInt ((9 / 10 : ℚ) * (L : ℚ)) = ((9 * L / 10 : ℕ) : ℤ) := by
  have h1 : (9 / 10 : ℚ) * (L : ℚ) = ((9 * L : ℕ) : ℚ) / ((10 : ℕ) : ℚ) := by
    push_cast
    ring
  rw [pyInt, if_pos (by positivity), h1, Rat.floor_natCast_div_natCast]
  omega

/-- The sample session keeps the default lifetime fraction. -/
theorem sampleSession_fraction :
    sampleSession.token_lifetime_fraction = 9 / 10 := rfl

/-- The sample session's stored expiry: `0 + int(0.9 × 300) = 270`. -/
theorem sampleSession_expires_at : sampleSession.expires_at = 270 := by
  show (0 : ℚ) + ((pyInt ((9 / 10 : ℚ) * ((300 : ℕ) : ℚ))) : ℚ) = 270
  rw [pyInt_nine_tenths]
  norm_num

/-- The sample session is not yet expired at time 0. -/
theorem sampleSession_fresh_at_zero :
    ¬ sampleSession.expires_at ≤ (0 : ℚ) := by
  rw [sampleSession_expires_at]
  norm_num

/-- The unauthenticated session's expiry is the construction instant. -/
theorem unauthInit_expires_at : unauthInit.state.expires_at = 0 := by
  show (0 : ℚ) + ((pyInt 0) : ℚ) = 0
  rw [pyInt, if_pos le_rfl]
  norm_num

/-- C1: when a refresh attempt fails with HTTP status 400 and a body
containing one of the rejection phrases, `refresh_token` performs exactly
one subsequent full acquisition (`get_token`), and the refresh error is
not propagated to the caller of the verb method (the call instead ends in
the `AttributeError` of the undefined `add_param_headers`). -/
theorem refresh_fallback_one_acquisition (s : SessionState) (now : ℚ)
    (t aq : Token) (rt body : String)
    (htok : s.token = some t) (hrt : t.refresh_token = some rt)
    (hbody : isRejection body = true) :
    (refresh_token s now (.error (400, body)) (.ok aq)).getTokenCalls = 1 ∧
    ∀ c b, (refresh_token s now (.error (400, body)) (.ok aq)).raised ≠
      some (.serpensPostError c b) := by
  cases hg : grantType s <;>
    simp [refresh_token, get_token, htok, hrt, hbody, hg]

/-- Witness: C1 at a concrete session, refresh rejected with 400 /
`"Session not active"`. -/
theorem refresh_fallback_one_acquisition_witness :
    sampleSession.token = some tok300 ∧
    tok300.refresh_token = some "ref0" ∧
    isRejection "Session not active" = true ∧
    ((refresh_token sampleSession 300 (.error (400, "Session not active"))
        (.ok tok300)).getTokenCalls = 1 ∧
      ∀ c b, (refresh_token sampleSession 300
          (.error (400, "Session not active")) (.ok tok300)).raised ≠
        some (.serpensPostError c b)) :=
  ⟨by decide, by decide, by decide,
    refresh_fallback_one_acquisition sampleSession 300 tok300 tok300 "ref0"
      "Session not active" (by decide) (by decide) (by decide)⟩

/-- C2 (code evaluated at the failing input): `send_put` and `send_delete`
are not overridden by `SerpensOpenIDConnection`, so a PUT or DELETE issued
in any state — in particular at or after `expires_at` — performs no expiry
check (the clock is never even read), makes zero `get_token` and zero
TokenService calls, and delegates directly to the transport verb. -/
theorem put_delete_skip_expiry_check :
    ∀ (s : SessionState) (path data : String)
      (params : List (String × String)) (net : Request → HttpOutcome),
      (sendPut s path data params net).serviceCalls = 0 ∧
      (sendPut s path data params net).getTokenCalls = 0 ∧
      (sendPut s path data params net).delegated = true ∧
      (sendDelete s path none params net).serviceCalls = 0 ∧
      (sendDelete s path none params net).getTokenCalls = 0 ∧
      (sendDelete s path none params net).delegated = true :=
  fun _ _ _ _ _ => ⟨rfl, rfl, rfl, rfl, rfl, rfl⟩

/-- C3 counterexample: with the default fraction 0.9 and a 301-second
lifetime, the stored expiry is issue time + 270 — not issue time + 270.9
as the claim's exact formula demands — because the code truncates the
product with `int()`. -/
theorem expiry_formula_counterexample :
    (setToken sampleSession 0 (some ⟨"a", none, 301⟩)).expires_at ≠
      expiresAtSpec 0 (9 / 10) 301 := by
  have h : (setToken sampleSession 0 (some ⟨"a", none, 301⟩)).expires_at
      = (270 : ℚ) := by
    show (0 : ℚ) +
        ((pyInt (sampleSession.token_lifetime_fraction * ((301 : ℕ) : ℚ))) : ℚ)
      = 270
    rw [sampleSession_fraction, pyInt_nine_tenths]
    norm_num
  rw [h]
  norm_num [expiresAtSpec]

/-- C3 (amended): `expiresAt` equals the issue time plus `int(f × L)`
seconds — the fraction times the lifetime truncated to a whole number of
seconds, `⌊9L/10⌋` for the default fraction — and it is recomputed from
the clock and the new token alone whenever the token is replaced; with
`L = 300` this is issue time + 270. -/
theorem expiry_computation (s : SessionState) (now : ℚ) (t : Token)
    (hf : s.token_lifetime_fraction = 9 / 10) :
    (setToken s now (some t)).expires_at
        = now + ((9 * t.expires_in / 10 : ℕ) : ℚ) ∧
    (setToken s now (some t)).token = some t ∧
    (t.expires_in = 300 →
      (setToken s now (some t)).expires_at = now + 270) := by
  have key : (setToken s now (some t)).expires_at
      = now + ((9 * t.expires_in / 10 : ℕ) : ℚ) := by
    have h2 : pyInt (s.token_lifetime_fraction * (t.expires_in : ℚ))
        = ((9 * t.expires_in / 10 : ℕ) : ℤ) := by
      rw [hf]
      exact pyInt_nine_tenths t.expires_in
    simp only [setToken, h2, Int.cast_natCast]
  refine ⟨key, rfl, fun h => ?_⟩
  rw [key, h]
  norm_num

/-- Witness: C3 (amended) at `tok300` (lifetime 300) and issue time 5. -/
theorem expiry_computation_witness :
    sampleSession.token_lifetime_fraction = 9 / 10 ∧
    ((setToken sampleSession 5 (some tok300)).expires_at
        = 5 + ((9 * tok300.expires_in / 10 : ℕ) : ℚ) ∧
      (setToken sampleSession 5 (some tok300)).token = some tok300 ∧
      (tok300.expires_in = 300 →
        (setToken sampleSession 5 (some tok300)).expires_at = 5 + 270)) :=
  ⟨rfl, expiry_computation sampleSession 5 tok300 rfl⟩

/-- C4: when a refresh attempt fails with any status/body other than 400
plus a rejection phrase, `refresh_token` re-raises the same
`SerpensPostError` — status code and body preserved — makes no `get_token`
call, and leaves the session state unchanged. -/
theorem refresh_nonfallback_propagates (s : SessionState) (now : ℚ)
    (t : Token) (rt : String) (code : ℕ) (body : String)
    (aq : Except PyError Token)
    (htok : s.token = some t) (hrt : t.refresh_token = some rt)
    (hne : ¬(code = 400 ∧ isRejection body = true)) :
    (refresh_token s now (.error (code, body)) aq).raised
        = some (.serpensPostError code body) ∧
    (refresh_token s now (.error (code, body)) aq).getTokenCalls = 0 ∧
    (refresh_token s now (.error (code, body)) aq).state = s := by
  simp [refresh_token, htok, hrt, hne]

/-- Witness: C4 at a concrete session, refresh failing with status 500. -/
theorem refresh_nonfallback_propagates_witness :
    sampleSession.token = some tok300 ∧
    tok300.refresh_token = some "ref0" ∧
    ¬((500 : ℕ) = 400 ∧ isRejection "Internal Server Error" = true) ∧
    ((refresh_token sampleSession 300 (.error (500, "Internal Server Error"))
        (.ok tok300)).raised
        = some (.serpensPostError 500 "Internal Server Error") ∧
      (refresh_token sampleSession 300 (.error (500, "Internal Server Error"))
        (.ok tok300)).getTokenCalls = 0 ∧
      (refresh_token sampleSession 300 (.error (500, "Internal Server Error"))
        (.ok tok300)).state = sampleSession) :=
  ⟨by decide, by decide, by decide,
    refresh_nonfallback_propagates sampleSession 300 tok300 "ref0" 500
      "Internal Server Error" (.ok tok300) (by decide) (by decide)
      (by decide)⟩

/-- C5 (code evaluated at the failing input): constructing with only the
server URL makes zero TokenService calls and sets no `Authorization`
header; but the first verb call finds `expires_at` equal to the
construction instant, enters `refresh_token`, and raises `AttributeError`
— with zero TokenService calls and no HTTP request — instead of
proceeding unauthenticated. -/
theorem unauth_first_call_raises :
    unauthInit.serviceCalls = 0 ∧
    unauthInit.raised = none ∧
    unauthInit.state.headers.get "Authorization" = none ∧
    (sendGet unauthInit.state 0 (.ok tok300) (.ok tok300) "/x" []
        netOk200).result = .error .attributeError ∧
    (sendGet unauthInit.state 0 (.ok tok300) (.ok tok300) "/x" []
        netOk200).delegated = false ∧
    (sendGet unauthInit.state 0 (.ok tok300) (.ok tok300) "/x" []
        netOk200).serviceCalls = 0 := by
  have hcond : unauthInit.state.expires_at ≤ (0 : ℚ) :=
    le_of_eq unauthInit_expires_at
  refine ⟨rfl, rfl, rfl, ?_, ?_, ?_⟩ <;>
    · simp only [sendGet, refreshIfRequired]
      rw [if_pos hcond]
      rfl

/-- C6 (code evaluated at the failing input): a successful POST through
the credential session — the transport returns a status-200 response —
hands the caller `None`: the overridden `send_post` never returns the
response it bound, even though the transport `send_post` it called
produced the raw response. `send_get` does return its raw response. -/
theorem post_returns_none :
    (sendPost sampleSession 0 (.ok tok300) (.ok tok300) "/p" "d" []
        netOk200).result = .ok none ∧
    sampleSession.toConn.send_post "/p" "d" [] netOk200
        = some ⟨200, HeaderMap.empty, "ok"⟩ ∧
    (sendGet sampleSession 0 (.ok tok300) (.ok tok300) "/p" []
        netOk200).result = .ok (some ⟨200, HeaderMap.empty, "ok"⟩) := by
  refine ⟨?_, rfl, ?_⟩
  · simp only [sendPost, refreshIfRequired]
    rw [if_neg sampleSession_fresh_at_zero]
  · simp only [sendGet, refreshIfRequired]
    rw [if_neg sampleSession_fresh_at_zero]
    rfl

/-- C7: each transport verb catches a low-level exception raised by the
HTTP request and yields no response instead of propagating it (POST and
PUT build the same request shape, so one hypothesis covers both). -/
theorem transport_error_swallowed (cm : ConnState) (path data : String)
    (dataD : Option String) (params : List (String × String))
    (net : Request → HttpOutcome)
    (hg : net (cm.requestFor path params none) = .exception)
    (hp : net (cm.requestFor path params (some data)) = .exception)
    (hd : net (cm.requestFor path params (some (dataD.getD "")))
        = .exception) :
    cm.send_get path params net = none ∧
    cm.send_post path data params net = none ∧
    cm.send_put path data params net = none ∧
    cm.send_delete path dataD params net = none := by
  unfold ConnState.send_get ConnState.send_post ConnState.send_put
    ConnState.send_delete
  rw [hg, hp, hd]
  exact ⟨rfl, rfl, rfl, rfl⟩

/-- Witness: C7 with a network oracle that always raises. -/
theorem transport_error_swallowed_witness :
    (fun _ => HttpOutcome.exception : Request → HttpOutcome)
        ((⟨"https://srv", HeaderMap.empty, 60, true⟩ : ConnState).requestFor
          "/x" [] none) = .exception ∧
    ((⟨"https://srv", HeaderMap.empty, 60, true⟩ : ConnState).send_get "/x"
        [] (fun _ => .exception) = none ∧
      (⟨"https://srv", HeaderMap.empty, 60, true⟩ : ConnState).send_post
        "/x" "d" [] (fun _ => .exception) = none ∧
      (⟨"https://srv", HeaderMap.empty, 60, true⟩ : ConnState).send_put
        "/x" "d" [] (fun _ => .exception) = none ∧
      (⟨"https://srv", HeaderMap.empty, 60, true⟩ : ConnState).send_delete
        "/x" none [] (fun _ => .exception) = none) :=
  ⟨rfl,
    transport_error_swallowed ⟨"https://srv", HeaderMap.empty, 60, true⟩
      "/x" "d" none [] (fun _ => .exception) rfl rfl rfl⟩

/-- C8 (code evaluated at the failing input): constructing with
`timeout=30` nevertheless leaves the stored per-request timeout at 60 —
`__init__` passes the literal `60` to the transport initializer,
overwriting the timeout it stored just before — and the request a
subsequent verb call issues carries timeout 60, not 30. -/
theorem timeout_hardcoded_to_60 :
    sampleSession.timeout = 60 ∧
    (sendGet sampleSession 0 (.ok tok300) (.ok tok300) "/x" []
        netOk200).request.map Request.timeout = some 60 := by
  refine ⟨rfl, ?_⟩
  simp only [sendGet, refreshIfRequired]
  rw [if_neg sampleSession_fresh_at_zero]
  rfl

/-- C9 counterexample: with a refresh token present and a refresh failure
of status 500, `refresh_token` raises the `SerpensPostError` itself, not
an `AttributeError` — the `raise` happens before the `add_param_headers`
line is reached. -/
theorem refresh_raise_counterexample :
    (refresh_token sampleSession 300 (.error (500, "ISE"))
        (.ok tok300)).raised = some (.serpensPostError 500 "ISE") ∧
    (refresh_token sampleSession 300 (.error (500, "ISE"))
        (.ok tok300)).raised ≠ some .attributeError := by
  decide

/-- C9 (amended): `refresh_token` never completes normally — every
invocation either re-raises the refresh `SerpensPostError` (non-fallback
branch) or reaches the final header-update line and raises
`AttributeError`, `add_param_headers` being defined nowhere; hence any
`send_get` or `send_post` issued at or after `expires_at` fails with an
exception and never executes the HTTP request. -/
theorem refresh_always_raises (s : SessionState) (now : ℚ)
    (ro : Except (ℕ × String) Token) (t : Token) (path data : String)
    (params : List (String × String)) (net : Request → HttpOutcome)
    (hexp : s.expires_at ≤ now) :
    ((refresh_token s now ro (.ok t)).raised = some .attributeError ∨
      ∃ c b, (refresh_token s now ro (.ok t)).raised
        = some (.serpensPostError c b)) ∧
    (sendGet s now ro (.ok t) path params net).delegated = false ∧
    (sendPost s now ro (.ok t) path data params net).delegated = false := by
  have hmain : (refresh_token s now ro (.ok t)).raised
        = some .attributeError ∨
      ∃ c b, (refresh_token s now ro (.ok t)).raised
        = some (.serpensPostError c b) := by
    cases htok : s.token with
    | none =>
      cases hg : grantType s <;>
        simp [refresh_token, get_token, htok, hg]
    | some tk =>
      cases hrt : tk.refresh_token with
      | none =>
        cases hg : grantType s <;>
          simp [refresh_token, get_token, htok, hrt, hg]
      | some rt =>
        cases ro with
        | ok t2 => simp [refresh_token, htok, hrt]
        | error e =>
          obtain ⟨c, b⟩ := e
          by_cases hc : c = 400 ∧ isRejection b = true
          · cases hg : grantType s <;>
              simp [refresh_token, get_token, htok, hrt, hg, hc]
          · right
            exact ⟨c, b, by simp [refresh_token, htok, hrt, hc]⟩
  refine ⟨hmain, ?_, ?_⟩
  · unfold sendGet refreshIfRequired
    rw [if_pos hexp]
    rcases hmain with h | ⟨c, b, h⟩ <;> simp [h]
  · unfold sendPost refreshIfRequired
    rw [if_pos hexp]
    rcases hmain with h | ⟨c, b, h⟩ <;> simp [h]

/-- Witness: C9 (amended) at a concrete expired session. -/
theorem refresh_always_raises_witness :
    sampleSession.expires_at ≤ 300 ∧
    (((refresh_token sampleSession 300 (.ok tok300) (.ok tok300)).raised
          = some .attributeError ∨
        ∃ c b, (refresh_token sampleSession 300 (.ok tok300)
            (.ok tok300)).raised = some (.serpensPostError c b)) ∧
      (sendGet sampleSession 300 (.ok tok300) (.ok tok300) "/x" []
          netOk200).delegated = false ∧
      (sendPost sampleSession 300 (.ok tok300) (.ok tok300) "/x" "d" []
          netOk200).delegated = false) :=
  ⟨by rw [sampleSession_expires_at]; norm_num,
    refresh_always_raises sampleSession 300 (.ok tok300) tok300 "/x" "d"
      [] netOk200 (by rw [sampleSession_expires_at]; norm_num)⟩

/-- C10: two `SerpensConnectionManager` instances constructed without an
explicit `headers` argument alias the one default-argument dict: a
`set_param_headers` through either is visible through `get_param_headers`
on the other — until one of them rebinds its mapping, as `clean_headers`
does, after which it no longer sees the shared entries. -/
theorem shared_default_headers_alias :
    ∀ (w : World) (u1 u2 k v : String),
      get_param_headers (set_param_headers w (mkManager u1 none) k v).1
          (mkManager u2 none) k = some v ∧
      get_param_headers (set_param_headers w (mkManager u1 none) k v).1
          (clean_headers (mkManager u2 none)) k = none := by
  intro w u1 u2 k v
  constructor
  · simp [get_param_headers, set_param_headers, mkManager, readHeaders,
      HeaderMap.get, HeaderMap.set, List.lookup]
  · simp [get_param_headers, set_param_headers, mkManager, readHeaders,
      clean_headers, HeaderMap.get, HeaderMap.empty]

end Serpens
